import Mathlib

/-!
Verification development for the IT-Support ticket-analysis pipeline.

The definitions below are a shallow embedding of the Python source:
- `utils/ai_analyzer.py` : the analysis validator (`_parse_ai_response`),
  the fallback record (`_create_fallback_analysis`), and the per-ticket
  analysis entry point (`analyze_ticket`);
- `utils/jira_client.py` : the keyword classifier (`_classify_ticket`)
  and the demo-ticket fixture (`_get_demo_tickets`);
- `utils/database.py`    : the ticket upsert (`save_tickets`) and the
  processed-analysis insert (`save_processed_ticket`), with the table
  states passed explicitly and per-statement failures given by an oracle;
- `app.py`               : the duplicate cleanup (`clean_database`) and
  the batch summary logging of `analyze_tickets`.

Python/JSON dynamic values are modelled by `JVal`; machine floats that can
only hold decimal literals produced by `json.loads` are modelled by `Rat`.
-/

/-- Dynamic JSON/Python value, as produced by Python's `json.loads`.
Objects are association lists in insertion order with unique keys
(duplicate keys overwrite, as in a Python dict). -/
inductive JVal where
  | null
  | bool (b : Bool)
  | num (q : ℚ)
  | str (s : String)
  | arr (xs : List JVal)
  | obj (fields : List (String × JVal))

/-- Python dict insertion: overwriting an existing key keeps its position,
a new key is appended (CPython dict semantics, used by `json.loads`). -/
def dictSet (o : List (String × JVal)) (k : String) (v : JVal) : List (String × JVal) :=
  if o.any (fun p => p.1 == k) then o.map (fun p => if p.1 == k then (k, v) else p)
  else o ++ [(k, v)]

/-- Python `o.get(k, d)`. -/
def pyGet (o : List (String × JVal)) (k : String) (d : JVal) : JVal :=
  match o.find? (fun p => p.1 == k) with
  | some p => p.2
  | none => d

/-- JSON whitespace (RFC 8259: space, tab, line feed, carriage return). -/
def isJsonWs (c : Char) : Bool :=
  c = ' ' || c = '\t' || c = '\n' || c = '\r'

def skipWs : List Char → List Char
  | [] => []
  | c :: cs => if isJsonWs c then skipWs cs else c :: cs

def hexVal (c : Char) : Option Nat :=
  if '0' ≤ c ∧ c ≤ '9' then some (c.toNat - '0'.toNat)
  else if 'a' ≤ c ∧ c ≤ 'f' then some (c.toNat - 'a'.toNat + 10)
  else if 'A' ≤ c ∧ c ≤ 'F' then some (c.toNat - 'A'.toNat + 10)
  else none

def escChar (c : Char) : Option Char :=
  if c = '"' then some '"'
  else if c = '\\' then some '\\'
  else if c = '/' then some '/'
  else if c = 'b' then some (Char.ofNat 8)
  else if c = 'f' then some (Char.ofNat 12)
  else if c = 'n' then some '\n'
  else if c = 'r' then some '\r'
  else if c = 't' then some '\t'
  else none

/-- Body of a JSON string after the opening quote: returns the decoded
characters and the input remaining after the closing quote. -/
def parseStrBody : List Char → Option (List Char × List Char)
  | [] => none
  | c :: cs =>
    if c = '"' then some ([], cs)
    else if c = '\\' then
      match cs with
      | [] => none
      | e :: cs2 =>
        if e = 'u' then
          match cs2 with
          | h1 :: h2 :: h3 :: h4 :: cs3 =>
            match hexVal h1, hexVal h2, hexVal h3, hexVal h4 with
            | some a, some b, some c3, some d =>
              match parseStrBody cs3 with
              | some (s, r) => some (Char.ofNat (((a * 16 + b) * 16 + c3) * 16 + d) :: s, r)
              | none => none
            | _, _, _, _ => none
          | _ => none
        else
          match escChar e with
          | some ec =>
            match parseStrBody cs2 with
            | some (s, r) => some (ec :: s, r)
            | none => none
          | none => none
    else
      match parseStrBody cs with
      | some (s, r) => some (c :: s, r)
      | none => none

/-- Longest leading run of decimal digits. -/
def takeDigits : List Char → List Char × List Char
  | [] => ([], [])
  | c :: cs =>
    if c.isDigit then
      let (d, r) := takeDigits cs
      (c :: d, r)
    else ([], c :: cs)

def digitsToNat (ds : List Char) : Nat :=
  ds.foldl (fun a c => a * 10 + (c.toNat - '0'.toNat)) 0

/-- Optional fractional part `.ddd` of a JSON number. -/
def parseFrac : List Char → Option (ℚ × List Char)
  | '.' :: t =>
    match takeDigits t with
    | ([], _) => none
    | (ds, r) => some ((digitsToNat ds : ℚ) / ((10 : ℚ) ^ ds.length), r)
  | cs => some (0, cs)

/-- Optional exponent part `e[+-]ddd` of a JSON number. -/
def parseExp : List Char → Option (Int × List Char)
  | c :: t =>
    if c = 'e' ∨ c = 'E' then
      match t with
      | '+' :: t2 =>
        match takeDigits t2 with
        | ([], _) => none
        | (ds, r) => some ((digitsToNat ds : Int), r)
      | '-' :: t2 =>
        match takeDigits t2 with
        | ([], _) => none
        | (ds, r) => some (-(digitsToNat ds : Int), r)
      | t2 =>
        match takeDigits t2 with
        | ([], _) => none
        | (ds, r) => some ((digitsToNat ds : Int), r)
    else some (0, c :: t)
  | [] => some (0, [])

def parseNumAux (cs : List Char) : Option (ℚ × List Char) :=
  match takeDigits cs with
  | ([], _) => none
  | (ds, r1) =>
    match parseFrac r1 with
    | none => none
    | some (f, r2) =>
      match parseExp r2 with
      | none => none
      | some (e, r3) => some (((digitsToNat ds : ℚ) + f) * (10 : ℚ) ^ e, r3)

/-- A JSON number (with optional leading minus). -/
def parseNum (cs : List Char) : Option (ℚ × List Char) :=
  match cs with
  | '-' :: t =>
    match parseNumAux t with
    | some (q, r) => some (-q, r)
    | none => none
  | _ => parseNumAux cs

def startsWithChars : List Char → List Char → Bool
  | [], _ => true
  | _ :: _, [] => false
  | a :: as, b :: bs => a == b && startsWithChars as bs

def stripLit (lit cs : List Char) : Option (List Char) :=
  if startsWithChars lit cs then some (cs.drop lit.length) else none

mutual

/-- Recursive-descent JSON value parser (embedding of `json.loads`),
fuel-indexed to make termination structural. -/
def parseVal : Nat → List Char → Option (JVal × List Char)
  | 0, _ => none
  | fuel + 1, cs =>
    match skipWs cs with
    | [] => none
    | c :: rest =>
      if c = '"' then
        match parseStrBody rest with
        | some (s, r) => some (JVal.str (String.mk s), r)
        | none => none
      else if c = '{' then
        match skipWs rest with
        | '}' :: r2 => some (JVal.obj [], r2)
        | r2 =>
          match parseMembers fuel r2 [] with
          | some (o, r3) => some (JVal.obj o, r3)
          | none => none
      else if c = '[' then
        match skipWs rest with
        | ']' :: r2 => some (JVal.arr [], r2)
        | r2 =>
          match parseItems fuel r2 [] with
          | some (xs, r3) => some (JVal.arr xs, r3)
          | none => none
      else if c = 't' then
        match stripLit ['t', 'r', 'u', 'e'] (c :: rest) with
        | some r => some (JVal.bool true, r)
        | none => none
      else if c = 'f' then
        match stripLit ['f', 'a', 'l', 's', 'e'] (c :: rest) with
        | some r => some (JVal.bool false, r)
        | none => none
      else if c = 'n' then
        match stripLit ['n', 'u', 'l', 'l'] (c :: rest) with
        | some r => some (JVal.null, r)
        | none => none
      else
        match parseNum (c :: rest) with
        | some (q, r) => some (JVal.num q, r)
        | none => none

/-- Members of a JSON object after the opening brace (nonempty case). -/
def parseMembers : Nat → List Char → List (String × JVal) → Option (List (String × JVal) × List Char)
  | 0, _, _ => none
  | fuel + 1, cs, acc =>
    match skipWs cs with
    | '"' :: r1 =>
      match parseStrBody r1 with
      | none => none
      | some (k, r2) =>
        match skipWs r2 with
        | ':' :: r3 =>
          match parseVal fuel r3 with
          | none => none
          | some (v, r4) =>
            match skipWs r4 with
            | ',' :: r5 => parseMembers fuel r5 (dictSet acc (String.mk k) v)
            | '}' :: r5 => some (dictSet acc (String.mk k) v, r5)
            | _ => none
        | _ => none
    | _ => none

/-- Items of a JSON array after the opening bracket (nonempty case). -/
def parseItems : Nat → List Char → List JVal → Option (List JVal × List Char)
  | 0, _, _ => none
  | fuel + 1, cs, acc =>
    match parseVal fuel cs with
    | none => none
    | some (v, r1) =>
      match skipWs r1 with
      | ',' :: r2 => parseItems fuel r2 (acc ++ [v])
      | ']' :: r2 => some (acc ++ [v], r2)
      | _ => none

end

/-- `json.loads` on a character sequence: parse one value, then require
only whitespace to remain. `none` models a raised `JSONDecodeError`. -/
def pyJsonLoads (cs : List Char) : Option JVal :=
  match parseVal (2 * cs.length + 2) cs with
  | some (v, rest) => if (skipWs rest).isEmpty then some v else none
  | none => none

/-- Python `str.strip()` whitespace (ASCII subset). -/
def isPyWs (c : Char) : Bool :=
  c = ' ' || c = '\t' || c = '\n' || c = '\r' || c = Char.ofNat 11 || c = Char.ofNat 12

/-- Python `str.strip()`. -/
def stripChars (cs : List Char) : List Char :=
  ((cs.dropWhile isPyWs).reverse.dropWhile isPyWs).reverse

/-- The greedy regex `\x7b.*\x7d` with DOTALL (ai_analyzer.py line 122):
matches from the first opening brace to the last closing brace, when the
latter comes strictly after the former. -/
def extractBraced (cs : List Char) : Option (List Char) :=
  match cs.findIdx? (fun c => c = '{'), (cs.reverse.findIdx? (fun c => c = '}')).map (fun k => cs.length - 1 - k) with
  | some i, some j => if i < j then some ((cs.drop i).take (j - i + 1)) else none
  | _, _ => none

/-- Python `float(v)` on a decimal string: strip, optional sign, digits
with optional fraction and exponent (`inf`/`nan`/underscores not modelled;
they do not occur in any input considered here). -/
def pyFloatOfChars (cs : List Char) : Option ℚ :=
  match stripChars cs with
  | '-' :: t =>
    match parseNumAux t with
    | some (q, r) => if r.isEmpty then some (-q) else none
    | none => none
  | '+' :: t =>
    match parseNumAux t with
    | some (q, r) => if r.isEmpty then some q else none
    | none => none
  | t =>
    match parseNumAux t with
    | some (q, r) => if r.isEmpty then some q else none
    | none => none

/-- Python `int(v)` on a string: strip, optional sign, digits only. -/
def pyIntOfChars (cs : List Char) : Option Int :=
  match stripChars cs with
  | '-' :: t =>
    match takeDigits t with
    | ([], _) => none
    | (ds, r) => if r.isEmpty then some (-(digitsToNat ds : Int)) else none
  | '+' :: t =>
    match takeDigits t with
    | ([], _) => none
    | (ds, r) => if r.isEmpty then some ((digitsToNat ds : Int)) else none
  | t =>
    match takeDigits t with
    | ([], _) => none
    | (ds, r) => if r.isEmpty then some ((digitsToNat ds : Int)) else none

/-- Python `float(v)` on a JSON value; `none` models a raised
`TypeError`/`ValueError`. -/
def pyFloat : JVal → Option ℚ
  | JVal.num q => some q
  | JVal.bool b => some (if b then 1 else 0)
  | JVal.str s => pyFloatOfChars s.toList
  | _ => none

/-- Python `int(v)` on a JSON value (floats truncate toward zero);
`none` models a raised `TypeError`/`ValueError`. -/
def pyInt : JVal → Option Int
  | JVal.num q => some (q.num.tdiv (q.den : Int))
  | JVal.bool b => some (if b then 1 else 0)
  | JVal.str s => pyIntOfChars s.toList
  | _ => none

/-- The ten required analysis fields, in the order the validator emits
them (ai_analyzer.py lines 128-139). -/
def requiredKeys : List String :=
  ["category", "priority", "confidence", "urgency_score", "complexity_score",
   "estimated_resolution_time", "suggested_solutions", "knowledge_base_search",
   "escalation_triggers", "risk_assessment"]

/-- The "Validate and set defaults" dict built at ai_analyzer.py lines
128-139 from a parsed JSON object `o`. `none` models the exception raised
by `float(...)` or `int(...)` on an uncoercible value, which the enclosing
`try` turns into the fallback record. -/
def validateFields (o : List (String × JVal)) : Option (List (String × JVal)) :=
  match pyFloat (pyGet o "confidence" (JVal.num (1 / 2))) with
  | none => none
  | some conf =>
  match pyInt (pyGet o "urgency_score" (JVal.num 5)) with
  | none => none
  | some urg =>
  match pyInt (pyGet o "complexity_score" (JVal.num 5)) with
  | none => none
  | some comp =>
    some
      [("category", pyGet o "category" (JVal.str "General")),
       ("priority", pyGet o "priority" (JVal.str "Medium")),
       ("confidence", JVal.num conf),
       ("urgency_score", JVal.num (urg : ℚ)),
       ("complexity_score", JVal.num (comp : ℚ)),
       ("estimated_resolution_time", pyGet o "estimated_resolution_time" (JVal.str "Unknown")),
       ("suggested_solutions", pyGet o "suggested_solutions" (JVal.arr [])),
       ("knowledge_base_search", pyGet o "knowledge_base_search" (JVal.arr [])),
       ("escalation_triggers", pyGet o "escalation_triggers" (JVal.arr [])),
       ("risk_assessment", pyGet o "risk_assessment" (JVal.str "Medium"))]

/-- `_create_fallback_analysis` (ai_analyzer.py lines 149-167), verbatim. -/
def fallbackAnalysis : List (String × JVal) :=
  [("category", JVal.str "General"),
   ("priority", JVal.str "Medium"),
   ("confidence", JVal.num (3 / 10)),
   ("urgency_score", JVal.num 5),
   ("complexity_score", JVal.num 5),
   ("estimated_resolution_time", JVal.str "Manual review required"),
   ("suggested_solutions", JVal.arr
     [JVal.obj
       [("title", JVal.str "Manual Review Required"),
        ("steps", JVal.arr
          [JVal.str "Review ticket details",
           JVal.str "Analyze requirements",
           JVal.str "Provide custom solution"]),
        ("confidence", JVal.num (3 / 10)),
        ("estimated_time", JVal.str "Variable")]]),
   ("knowledge_base_search", JVal.arr []),
   ("escalation_triggers", JVal.arr [JVal.str "Manual review needed"]),
   ("risk_assessment", JVal.str "Medium")]

/-- `_parse_ai_response` (ai_analyzer.py lines 115-147): strip, locate a
brace-delimited substring, `json.loads` it, build the defaulted dict; any
failure along the way is caught and yields the fallback record. -/
def parseAiResponse (responseText : String) : List (String × JVal) :=
  match extractBraced (stripChars responseText.toList) with
  | none => fallbackAnalysis
  | some js =>
    match pyJsonLoads js with
    | some (JVal.obj o) =>
      match validateFields o with
      | some d => d
      | none => fallbackAnalysis
    | _ => fallbackAnalysis

/-! ## Classifier heuristic (`_classify_ticket`, jira_client.py lines 306-321) -/

/-- Python substring test `needle in hay` on character lists. -/
def hasSubstr (needle : List Char) : List Char → Bool
  | [] => needle.isEmpty
  | b :: rest => startsWithChars needle (b :: rest) || hasSubstr needle rest

/-- Python `text.lower()` (ASCII; all texts considered are ASCII). -/
def lowerChars (text : String) : List Char :=
  text.toList.map Char.toLower

def hardwareKeywords : List String :=
  ["computer", "laptop", "desktop", "monitor", "printer", "hardware", "usb", "mouse", "keyboard"]

def softwareKeywords : List String :=
  ["software", "application", "program", "install", "update", "office", "microsoft", "license"]

def networkKeywords : List String :=
  ["network", "wifi", "internet", "connection", "vpn", "email", "smtp"]

def securityKeywords : List String :=
  ["password", "login", "access", "security", "account", "locked", "authentication"]

def telecomKeywords : List String :=
  ["phone", "telephone", "call", "voip"]

/-- `_classify_ticket` (jira_client.py lines 306-321): lowercase the text,
then test the five keyword buckets in order; first bucket with a matching
keyword wins; no match gives "General". -/
def classifyTicket (text : String) : String :=
  let t := lowerChars text
  if hardwareKeywords.any (fun w => hasSubstr w.toList t) then "Hardware"
  else if softwareKeywords.any (fun w => hasSubstr w.toList t) then "Software"
  else if networkKeywords.any (fun w => hasSubstr w.toList t) then "Network"
  else if securityKeywords.any (fun w => hasSubstr w.toList t) then "Security"
  else if telecomKeywords.any (fun w => hasSubstr w.toList t) then "Telecom"
  else "General"

/-! ## Demo-ticket fixture (`_get_demo_tickets`, jira_client.py lines 136-252)

The `created`/`updated` fields of the fixture are offsets from
`datetime.now()`; they are time-dependent and play no role in any property
below, so they are not carried in the embedded record. -/

structure DemoTicket where
  id : String
  summary : String
  description : String
  priority : String
  status : String
  reporter : String
deriving DecidableEq

def demoTicketsBase : List DemoTicket :=
  [⟨"DEMO-001", "Laptop won\x27t start after Windows update",
    "User reports laptop shows black screen after latest Windows update. Power button works but no display.",
    "High", "Open", "John Smith"⟩,
   ⟨"DEMO-002", "Cannot access shared network drive",
    "Employee cannot connect to shared drive \\server\\finance. Gets access denied error.",
    "Medium", "In Progress", "Jane Doe"⟩,
   ⟨"DEMO-003", "Office printer not working",
    "Main office printer showing error code E001. Paper jams cleared but still not printing.",
    "Low", "Open", "Mike Johnson"⟩,
   ⟨"DEMO-004", "Email account locked out",
    "User locked out of email account after multiple failed login attempts. Needs password reset.",
    "High", "To Do", "Sarah Wilson"⟩,
   ⟨"DEMO-005", "VPN connection issues",
    "Remote employee cannot establish VPN connection. Times out during authentication.",
    "Critical", "Open", "David Brown"⟩,
   ⟨"DEMO-006", "Microsoft Office license expired",
    "User getting activation errors when opening Word and Excel. License needs renewal.",
    "Medium", "In Progress", "Lisa Anderson"⟩,
   ⟨"DEMO-007", "Slow computer performance",
    "Employee reports computer is very slow, takes 10+ minutes to boot up and programs freeze frequently.",
    "Medium", "Open", "Robert Chen"⟩,
   ⟨"DEMO-008", "Cannot send emails",
    "User can receive emails but cannot send. Gets error: \"SMTP server connection failed\".",
    "High", "To Do", "Maria Garcia"⟩,
   ⟨"DEMO-009", "USB devices not recognized",
    "Computer not recognizing USB flash drives and external hard drives. Tried multiple ports.",
    "Low", "Open", "Kevin Martinez"⟩,
   ⟨"DEMO-010", "Phone system down",
    "Office phone system completely down. No incoming or outgoing calls possible.",
    "Critical", "In Progress", "Amanda Taylor"⟩]

/-- Result shape of `fetch_tickets` / `_get_demo_tickets`: each demo
ticket paired with the category assigned at jira_client.py line 243. -/
structure FetchResult where
  success : Bool
  tickets : List (DemoTicket × String)
  count : Nat

/-- `_get_demo_tickets(max_results)` (jira_client.py lines 136-252). -/
def getDemoTickets (maxResults : Nat) : FetchResult :=
  let tagged := demoTicketsBase.map (fun t => (t, classifyTicket (t.summary ++ " " ++ t.description)))
  let selected := tagged.take (min maxResults tagged.length)
  ⟨true, selected, selected.length⟩

/-- `fetch_tickets` in demo mode (jira_client.py lines 26-27): with any
tracker credential absent the client short-circuits to the fixture. -/
def fetchTicketsDemoMode (maxResults : Nat) : FetchResult :=
  getDemoTickets maxResults

/-! ## Per-ticket analysis (`analyze_ticket`, ai_analyzer.py lines 41-62) -/

structure Ticket where
  id : String
  summary : String
  description : String
  category : String
  priority : String

/-- The reasoning backend as seen by `analyze_ticket`: no model was
initialized (`self.model is None`), the generation call raised, or it
returned a response whose `.text` is the given string (an empty string
models a falsy `response.text`). -/
inductive Backend where
  | noModel
  | callFails
  | returns (text : String)

structure AnalyzeResult where
  success : Bool
  ticket_id : String
  analysis : List (String × JVal)

/-- `_fallback_analysis` (ai_analyzer.py lines 169-175). -/
def fallbackResult (t : Ticket) : AnalyzeResult :=
  ⟨true, t.id, fallbackAnalysis⟩

/-- `analyze_ticket` (ai_analyzer.py lines 41-62): without a model, on a
raising call, or on a falsy response text, return the fallback result;
otherwise parse the response through the validator. -/
def analyzeTicket (b : Backend) (t : Ticket) : AnalyzeResult :=
  match b with
  | Backend.noModel => fallbackResult t
  | Backend.callFails => fallbackResult t
  | Backend.returns s => if s.isEmpty then fallbackResult t else ⟨true, t.id, parseAiResponse s⟩

/-! ## Tickets table (`save_tickets`, database.py lines 74-117)

The `tickets` table is a list of rows; `id` is the primary key. Incoming
tickets carry the same nine columns, so one record type serves both. -/

structure TicketRow where
  id : String
  summary : String
  description : String
  category : String
  priority : String
  status : String
  reporter : String
  created : String
  updated : String
deriving DecidableEq

/-- The `DO UPDATE SET` clause (database.py lines 93-100): overwrite the
mutable columns of a conflicting row from the excluded ticket `t`,
keeping the row's `id` and `created`. -/
def updateRow (t r : TicketRow) : TicketRow :=
  { r with summary := t.summary, description := t.description,
           category := t.category, priority := t.priority,
           status := t.status, reporter := t.reporter, updated := t.updated }

/-- One `INSERT ... ON CONFLICT (id) DO UPDATE` statement (database.py
lines 89-105): insert if the id is absent, else update every mutable
column while keeping `id` and `created`. -/
def upsertTicket (table : List TicketRow) (t : TicketRow) : List TicketRow :=
  if table.any (fun r => r.id == t.id) then
    table.map (fun r => if r.id == t.id then updateRow t r else r)
  else table ++ [t]

/-- The statement loop of `save_tickets`: `orig` is the committed table
(what a rollback restores), `pending` the uncommitted work; `fails` says
which ticket's statement raises (connection/constraint error oracle). -/
def saveTicketsGo (fails : TicketRow → Bool) (orig : List TicketRow) :
    List TicketRow → List TicketRow → List TicketRow × Bool
  | pending, [] => (pending, true)
  | pending, t :: ts =>
    if fails t then (orig, false)
    else saveTicketsGo fails orig (upsertTicket pending t) ts

/-- `save_tickets(tickets)` (database.py lines 74-117): empty input is a
no-op returning `True`; otherwise run the loop in one transaction, commit
on success, roll back to the original table and return `False` on the
first failing statement. -/
def saveTickets (fails : TicketRow → Bool) (table : List TicketRow)
    (tickets : List TicketRow) : List TicketRow × Bool :=
  if tickets.isEmpty then (table, true)
  else saveTicketsGo fails table table tickets

/-! ## Processed-tickets table (`save_processed_ticket`, database.py
lines 119-154, and `clean_database`, app.py lines 76-101) -/

structure ProcRow where
  id : String
  ticket_id : String
  analysis : List (String × JVal)
  confidence : JVal
  processedDate : Int
  status : String

/-- The generated composite id (database.py line 126):
`f"processed_{ticket_id}_{int(datetime.now().timestamp())}"`;
`nowSec` is the whole-second timestamp. -/
def makeProcessedId (ticket_id : String) (nowSec : Int) : String :=
  "processed_" ++ ticket_id ++ "_" ++ toString nowSec

/-- `save_processed_ticket(ticket_id, analysis)` (database.py lines
119-154): insert a fresh row under the generated id; a primary-key
collision raises, is caught, rolls back and returns `False`. -/
def saveProcessedTicket (table : List ProcRow) (ticket_id : String)
    (analysis : List (String × JVal)) (nowSec : Int) : List ProcRow × Bool :=
  let pid := makeProcessedId ticket_id nowSec
  if table.any (fun r => r.id == pid) then (table, false)
  else
    (table ++ [⟨pid, ticket_id, analysis, pyGet analysis "confidence" (JVal.num (1 / 2)), nowSec, "pending"⟩],
     true)

/-- SQL `MAX` over a list of text values (lexicographic string order). -/
def maxOf : List String → Option String
  | [] => none
  | x :: xs =>
    match maxOf xs with
    | none => some x
    | some m => some (max x m)

/-- The ids of the rows of a `ticket_id` group. -/
def idsFor (tid : String) (table : List ProcRow) : List String :=
  (table.filter (fun r => r.ticket_id == tid)).map (fun r => r.id)

/-- `SELECT MAX(id) FROM processed_tickets GROUP BY ticket_id`
(app.py lines 86-90). -/
def latestIds (table : List ProcRow) : List String :=
  ((table.map (fun r => r.ticket_id)).dedup).filterMap (fun tid => maxOf (idsFor tid table))

/-- `clean_database` (app.py lines 76-101): delete every row whose id is
not one of the per-group maxima; return the surviving table and the
delete's rowcount. -/
def cleanDatabase (table : List ProcRow) : List ProcRow × Nat :=
  let kept := table.filter (fun r => (latestIds table).contains r.id)
  (kept, table.length - kept.length)

/-! ## Batch summary logging (`analyze_tickets`, app.py lines 258-280)

Each batch entry is `(result.success, save succeeded)`: the first
component is the analyzer outcome flag, the second whether
`save_processed_ticket` returned `True` (consulted only when the first
is true, matching lines 261-268). -/

def successCount : List (Bool × Bool) → Nat
  | [] => 0
  | (s, ok) :: rest => (if s && ok then 1 else 0) + successCount rest

def errorCount : List (Bool × Bool) → Nat
  | [] => 0
  | (s, ok) :: rest => (if s && ok then 0 else 1) + errorCount rest

/-- The log events emitted after the save loop (app.py lines 270-276):
a SUCCESS event when at least one save succeeded, then a PARTIAL event
when at least one entry failed. -/
def analyzeTicketsEvents (results : List (Bool × Bool)) : List (String × String) :=
  (if successCount results > 0 then [("analyze_tickets", "SUCCESS")] else []) ++
  (if errorCount results > 0 then [("analyze_tickets", "PARTIAL")] else [])

/-! ## Spec-side definitions and concrete fixtures

`specCategoryOk` and `specFallbackRecord` follow the specification's
words (§4.1 and §3), not the code; they exist to compare the spec's
claims with the embedded code. The remaining definitions are concrete
fixtures used by witnesses. -/

/-- The category enum of the spec's §3/§4.1 table, following the spec's
words: the value must be one of the named ticket categories. -/
def specCategoryOk : JVal → Bool
  | JVal.str s => ["Hardware", "Software", "Network", "Security", "General", "Telecom"].contains s
  | _ => false

/-- The fallback record as the spec's words describe it: all §4.1 table
defaults, confidence 0.3, one synthetic "Manual Review Required"
solution, and escalation_triggers = ["Manual review needed"]. The table
default for `estimated_resolution_time` is "Unknown". -/
def specFallbackRecord : List (String × JVal) :=
  [("category", JVal.str "General"),
   ("priority", JVal.str "Medium"),
   ("confidence", JVal.num (3 / 10)),
   ("urgency_score", JVal.num 5),
   ("complexity_score", JVal.num 5),
   ("estimated_resolution_time", JVal.str "Unknown"),
   ("suggested_solutions", JVal.arr
     [JVal.obj
       [("title", JVal.str "Manual Review Required"),
        ("steps", JVal.arr
          [JVal.str "Review ticket details",
           JVal.str "Analyze requirements",
           JVal.str "Provide custom solution"]),
        ("confidence", JVal.num (3 / 10)),
        ("estimated_time", JVal.str "Variable")]]),
   ("knowledge_base_search", JVal.arr []),
   ("escalation_triggers", JVal.arr [JVal.str "Manual review needed"]),
   ("risk_assessment", JVal.str "Medium")]

/-- A sample ticket used by witnesses. -/
def tW : Ticket :=
  ⟨"TEST-1", "Test ticket", "Test description", "General", "Low"⟩

/-- The defaulted dict `validateFields` produces from an empty object. -/
def valDefault : List (String × JVal) :=
  [("category", JVal.str "General"),
   ("priority", JVal.str "Medium"),
   ("confidence", JVal.num (1 / 2)),
   ("urgency_score", JVal.num ((5 : Int) : ℚ)),
   ("complexity_score", JVal.num ((5 : Int) : ℚ)),
   ("estimated_resolution_time", JVal.str "Unknown"),
   ("suggested_solutions", JVal.arr []),
   ("knowledge_base_search", JVal.arr []),
   ("escalation_triggers", JVal.arr []),
   ("risk_assessment", JVal.str "Medium")]

/-- A stored tickets-table row used by witnesses. -/
def ticketRowW : TicketRow :=
  ⟨"T1", "old summary", "old description", "General", "Low", "Open", "alice", "2024-01-01", "2024-01-02"⟩

/-- A re-ingested version of `ticketRowW` with every mutable field changed. -/
def ticketRowW2 : TicketRow :=
  ⟨"T1", "new summary", "new description", "Network", "High", "In Progress", "bob", "2024-02-01", "2024-02-02"⟩

/-- A second ticket, whose statement the C8 witness oracle makes fail. -/
def ticketRowW3 : TicketRow :=
  ⟨"T2", "s2", "d2", "General", "Low", "Open", "carol", "2024-03-01", "2024-03-02"⟩

/-- Failure oracle that fails exactly the row with id "T2". -/
def failsT2 : TicketRow → Bool := fun t => t.id == "T2"

/-- A processed-tickets row used by the C4 witness. -/
def procRowW : ProcRow :=
  ⟨makeProcessedId "T1" 100, "T1", [], JVal.null, 100, "pending"⟩

/-- A processed-tickets table with duplicate rows for "T1", used by the
C9 witness. -/
def procTableW : List ProcRow :=
  [⟨"processed_T1_100", "T1", [], JVal.null, 100, "pending"⟩,
   ⟨"processed_T1_200", "T1", [], JVal.null, 200, "pending"⟩,
   ⟨"processed_T2_150", "T2", [], JVal.null, 150, "pending"⟩]

/-! ## Theorems -/

theorem validateFields_keys (o d : List (String × JVal)) (h : validateFields o = some d) :
    d.map Prod.fst = requiredKeys := by
  unfold validateFields at h
  split at h
  · cases h
  · split at h
    · cases h
    · split at h
      · cases h
      · simp only [Option.some.injEq] at h
        subst h
        rfl

/-- C1 (amended): for every raw response text, the validator returns a
record carrying exactly the ten required fields, in order, and (being a
total function) never raises; no enum or range check is performed on the
field values. -/
theorem parse_ai_response_always_complete (s : String) :
    (parseAiResponse s).map Prod.fst = requiredKeys := by
  unfold parseAiResponse
  split
  · rfl
  · split
    · split
      · rename_i d heq
        exact validateFields_keys _ _ heq
      · rfl
    · rfl

/-- C1 (counterexample): on the raw text `\x7b"category": "Banana"\x7d`
the validator returns a complete record whose `category` value is the
string "Banana", which is not one of the ticket categories — the claim
that every field value satisfies its declared enum is false. -/
theorem parse_ai_response_invalid_enum_cex :
    pyGet (parseAiResponse "\x7b\"category\": \"Banana\"\x7d") "category" JVal.null
      = JVal.str "Banana" ∧
    specCategoryOk (JVal.str "Banana") = false ∧
    (parseAiResponse "\x7b\"category\": \"Banana\"\x7d").map Prod.fst = requiredKeys := by
  refine ⟨rfl, by decide, rfl⟩

/-- C2 (amended): when a JSON object is parsed and the three numeric
coercions succeed, the seven non-coerced fields each take the parsed
value whenever the key is present — whatever its type — and the table
default only when the key is missing (Python `dict.get` semantics); the
three numeric fields take the `float`/`int` coercion of the parsed value
or of the default. A failing coercion aborts the whole dict. -/
theorem validate_fields_field_policy (o d : List (String × JVal)) (h : validateFields o = some d) :
    d.map Prod.fst = requiredKeys ∧
    pyGet d "category" JVal.null = pyGet o "category" (JVal.str "General") ∧
    pyGet d "priority" JVal.null = pyGet o "priority" (JVal.str "Medium") ∧
    pyGet d "estimated_resolution_time" JVal.null
      = pyGet o "estimated_resolution_time" (JVal.str "Unknown") ∧
    pyGet d "suggested_solutions" JVal.null = pyGet o "suggested_solutions" (JVal.arr []) ∧
    pyGet d "knowledge_base_search" JVal.null = pyGet o "knowledge_base_search" (JVal.arr []) ∧
    pyGet d "escalation_triggers" JVal.null = pyGet o "escalation_triggers" (JVal.arr []) ∧
    pyGet d "risk_assessment" JVal.null = pyGet o "risk_assessment" (JVal.str "Medium") ∧
    (∃ q : ℚ, pyFloat (pyGet o "confidence" (JVal.num (1 / 2))) = some q ∧
       pyGet d "confidence" JVal.null = JVal.num q) ∧
    (∃ n : Int, pyInt (pyGet o "urgency_score" (JVal.num 5)) = some n ∧
       pyGet d "urgency_score" JVal.null = JVal.num (n : ℚ)) ∧
    (∃ n : Int, pyInt (pyGet o "complexity_score" (JVal.num 5)) = some n ∧
       pyGet d "complexity_score" JVal.null = JVal.num (n : ℚ)) := by
  unfold validateFields at h
  split at h
  · cases h
  · rename_i conf hc
    split at h
    · cases h
    · rename_i urg hu
      split at h
      · cases h
      · rename_i comp hk
        simp only [Option.some.injEq] at h
        subst h
        exact ⟨rfl, rfl, rfl, rfl, rfl, rfl, rfl, rfl,
               ⟨conf, hc, rfl⟩, ⟨urg, hu, rfl⟩, ⟨comp, hk, rfl⟩⟩

theorem validate_fields_field_policy_witness :
    validateFields [] = some valDefault ∧
    pyGet valDefault "category" JVal.null = pyGet [] "category" (JVal.str "General") :=
  ⟨rfl, (validate_fields_field_policy [] valDefault rfl).2.1⟩

/-- C2 (counterexample): on `\x7b"category": ["x"]\x7d` the parsed value
of `category` is present but of the wrong type, and the validator keeps
it as-is instead of substituting the default "General". -/
theorem validate_fields_wrong_type_cex :
    pyGet (parseAiResponse "\x7b\"category\": [\"x\"]\x7d") "category" JVal.null
      = JVal.arr [JVal.str "x"] ∧
    JVal.arr [JVal.str "x"] ≠ JVal.str "General" := by
  refine ⟨rfl, fun h => JVal.noConfusion h⟩

theorem parseAiResponse_no_json (s : String)
    (h : extractBraced (stripChars s.toList) = none) :
    parseAiResponse s = fallbackAnalysis := by
  unfold parseAiResponse
  rw [h]

theorem parseAiResponse_bad_json (s : String) (js : List Char)
    (h1 : extractBraced (stripChars s.toList) = some js)
    (h2 : pyJsonLoads js = none) :
    parseAiResponse s = fallbackAnalysis := by
  unfold parseAiResponse
  split
  · rfl
  · rename_i js' heq
    rw [h1] at heq
    injection heq with hjs
    subst hjs
    split
    · rename_i o heq2
      rw [h2] at heq2
      cases heq2
    · rfl

/-- C3 (amended): `analyze_ticket` always reports `success=true`; with no
configured backend, on a raising call, on a falsy response, on a response
without a JSON-shaped substring, or on an unparseable one, the analysis
is exactly the code's fallback record — which carries every §4.1 table
default except `estimated_resolution_time`, set to
"Manual review required" instead of "Unknown", plus confidence 0.3, the
single "Manual Review Required" solution and
escalation_triggers = ["Manual review needed"]. -/
theorem analyze_ticket_fallback_paths :
    (∀ (b : Backend) (t : Ticket), (analyzeTicket b t).success = true) ∧
    (∀ t : Ticket, analyzeTicket Backend.noModel t = ⟨true, t.id, fallbackAnalysis⟩) ∧
    (∀ t : Ticket, analyzeTicket Backend.callFails t = ⟨true, t.id, fallbackAnalysis⟩) ∧
    (∀ (s : String) (t : Ticket), extractBraced (stripChars s.toList) = none →
       analyzeTicket (Backend.returns s) t = ⟨true, t.id, fallbackAnalysis⟩) ∧
    (∀ (s : String) (t : Ticket) (js : List Char),
       extractBraced (stripChars s.toList) = some js → pyJsonLoads js = none →
       analyzeTicket (Backend.returns s) t = ⟨true, t.id, fallbackAnalysis⟩) := by
  refine ⟨?_, fun _ => rfl, fun _ => rfl, ?_, ?_⟩
  · intro b t
    cases b with
    | noModel => rfl
    | callFails => rfl
    | returns s =>
      by_cases he : s.isEmpty <;> simp [analyzeTicket, he, fallbackResult]
  · intro s t h
    by_cases he : s.isEmpty <;>
      simp [analyzeTicket, he, fallbackResult, parseAiResponse_no_json s h]
  · intro s t js h1 h2
    by_cases he : s.isEmpty <;>
      simp [analyzeTicket, he, fallbackResult, parseAiResponse_bad_json s js h1 h2]

theorem analyze_ticket_fallback_paths_witness :
    analyzeTicket (Backend.returns "no json here") tW = ⟨true, tW.id, fallbackAnalysis⟩ ∧
    analyzeTicket (Backend.returns "x\x7b]\x7dy") tW = ⟨true, tW.id, fallbackAnalysis⟩ :=
  ⟨analyze_ticket_fallback_paths.2.2.2.1 "no json here" tW rfl,
   analyze_ticket_fallback_paths.2.2.2.2 "x\x7b]\x7dy" tW ['{', ']', '}'] rfl rfl⟩

/-- C3 (counterexample): the analysis returned in no-backend mode is not
the record built from the §4.1 table defaults that the claim describes:
its `estimated_resolution_time` is "Manual review required", not the
table default "Unknown". -/
theorem analyze_ticket_fallback_cex :
    (analyzeTicket Backend.noModel tW).analysis ≠ specFallbackRecord ∧
    pyGet (analyzeTicket Backend.noModel tW).analysis "estimated_resolution_time" JVal.null
      = JVal.str "Manual review required" := by
  constructor
  · intro h
    have h2 : JVal.str "Manual review required" = JVal.str "Unknown" :=
      congrArg (fun l => pyGet l "estimated_resolution_time" JVal.null) h
    injection h2 with h3
    exact absurd h3 (by decide)
  · rfl

/-- C5 (amended): the classifier is a pure function of the lowercased
text testing the ordered buckets Hardware, Software, Network, Security,
Telecom with first match winning; any text containing "laptop" maps to
Hardware (the Hardware bucket is tested first), while a text containing
"vpn" maps to Network only when no Hardware or Software keyword also
occurs, since those buckets take precedence. -/
theorem classify_ticket_keyword_buckets :
    (∀ text : String, hasSubstr "laptop".toList (lowerChars text) = true →
       classifyTicket text = "Hardware") ∧
    (∀ text : String, hasSubstr "vpn".toList (lowerChars text) = true →
       hardwareKeywords.any (fun w => hasSubstr w.toList (lowerChars text)) = false →
       softwareKeywords.any (fun w => hasSubstr w.toList (lowerChars text)) = false →
       classifyTicket text = "Network") := by
  constructor
  · intro text h
    have hany : hardwareKeywords.any (fun w => hasSubstr w.toList (lowerChars text)) = true :=
      List.any_eq_true.mpr ⟨"laptop", by decide, h⟩
    simp only [classifyTicket]
    rw [hany]
    rfl
  · intro text h hhw hsw
    have hany : networkKeywords.any (fun w => hasSubstr w.toList (lowerChars text)) = true :=
      List.any_eq_true.mpr ⟨"vpn", by decide, h⟩
    simp only [classifyTicket]
    rw [hhw, hsw, hany]
    rfl

theorem classify_ticket_keyword_buckets_witness :
    classifyTicket "Broken laptop screen" = "Hardware" ∧
    classifyTicket "the corporate vpn is down" = "Network" :=
  ⟨classify_ticket_keyword_buckets.1 "Broken laptop screen" (by decide),
   classify_ticket_keyword_buckets.2 "the corporate vpn is down" (by decide) (by decide) (by decide)⟩

/-- C5 (counterexample): "laptop vpn not working" contains "vpn" but is
classified Hardware, because the Hardware bucket is tested before the
Network bucket — the claim that every text containing "vpn" yields
Network is false. -/
theorem classify_ticket_vpn_cex :
    hasSubstr "vpn".toList (lowerChars "laptop vpn not working") = true ∧
    classifyTicket "laptop vpn not working" = "Hardware" ∧
    classifyTicket "laptop vpn not working" ≠ "Network" := by
  refine ⟨by decide, by decide, by decide⟩

/-- C10 (amended): in demo mode `fetch_tickets` returns success with the
fixed ten-ticket fixture, but the classifier assigns the fixture only the
categories Hardware, Network and Software: the intended Security ticket
(DEMO-004) contains "email" and lands in Network, and the intended
Telecom ticket (DEMO-010) contains "office" and lands in Software. -/
theorem get_demo_tickets_fixture :
    (fetchTicketsDemoMode 50).success = true ∧
    (fetchTicketsDemoMode 50).count = 10 ∧
    (fetchTicketsDemoMode 50).tickets.map Prod.snd =
      ["Hardware", "Network", "Hardware", "Network", "Network",
       "Software", "Hardware", "Network", "Hardware", "Software"] := by
  refine ⟨rfl, rfl, ?_⟩
  rfl

/-- C10 (counterexample): the fixture's assigned categories include
neither "Security" nor "Telecom", so the fixture does not span all five
categories as claimed. -/
theorem get_demo_tickets_missing_categories_cex :
    ((fetchTicketsDemoMode 50).tickets.map Prod.snd).contains "Security" = false ∧
    ((fetchTicketsDemoMode 50).tickets.map Prod.snd).contains "Telecom" = false := by
  refine ⟨rfl, rfl⟩

theorem successCount_pos_iff (rs : List (Bool × Bool)) :
    0 < successCount rs ↔ rs.any (fun r => r.1 && r.2) = true := by
  induction rs with
  | nil => simp [successCount]
  | cons r rest ih =>
    obtain ⟨s, ok⟩ := r
    by_cases h : s && ok <;> simp [successCount, h, ih]

theorem errorCount_pos_iff (rs : List (Bool × Bool)) :
    0 < errorCount rs ↔ rs.any (fun r => !(r.1 && r.2)) = true := by
  induction rs with
  | nil => simp [errorCount]
  | cons r rest ih =>
    obtain ⟨s, ok⟩ := r
    simp only [errorCount, List.any_cons]
    by_cases h : (s && ok) = true
    · rw [h, if_pos rfl]
      simp only [Bool.not_true, Bool.false_or, Nat.zero_add]
      exact ih
    · rw [if_neg h]
      have h2 : (!(s && ok)) = true := by
        cases hb : s && ok
        · rfl
        · exact absurd hb h
      rw [h2]
      simp

/-- C6 (amended): after a batch, `analyze_tickets` logs a SUCCESS event
precisely when at least one entry was analyzed and saved, followed by a
PARTIAL event precisely when at least one entry failed (analysis failure
or failed save); a mixed batch therefore logs two events, an all-failed
batch logs a single PARTIAL event, and an ERROR event arises only from a
top-level exception, outside this path. -/
theorem analyze_tickets_summary_events (rs : List (Bool × Bool)) :
    (analyzeTicketsEvents rs).map Prod.snd =
      (if rs.any (fun r => r.1 && r.2) = true then ["SUCCESS"] else []) ++
      (if rs.any (fun r => !(r.1 && r.2)) = true then ["PARTIAL"] else []) := by
  unfold analyzeTicketsEvents
  by_cases hs : 0 < successCount rs <;> by_cases he : 0 < errorCount rs
  · rw [if_pos hs, if_pos he,
       if_pos ((successCount_pos_iff rs).mp hs), if_pos ((errorCount_pos_iff rs).mp he)]
    rfl
  · rw [if_pos hs, if_neg he,
       if_pos ((successCount_pos_iff rs).mp hs),
       if_neg (fun hh => he ((errorCount_pos_iff rs).mpr hh))]
    rfl
  · rw [if_neg hs, if_pos he,
       if_neg (fun hh => hs ((successCount_pos_iff rs).mpr hh)),
       if_pos ((errorCount_pos_iff rs).mp he)]
    rfl
  · rw [if_neg hs, if_neg he,
       if_neg (fun hh => hs ((successCount_pos_iff rs).mpr hh)),
       if_neg (fun hh => he ((errorCount_pos_iff rs).mpr hh))]
    rfl

/-- C6 (counterexample): a mixed batch (one saved, one failed) emits two
log events, not exactly one; and a batch in which no save succeeded emits
a single PARTIAL event where the claim requires ERROR. -/
theorem analyze_tickets_summary_cex :
    (analyzeTicketsEvents [(true, true), (true, false)]).length = 2 ∧
    (analyzeTicketsEvents [(true, false)]).map Prod.snd = ["PARTIAL"] := by
  refine ⟨rfl, rfl⟩

/-- C4 (amended): the generated processed-row id is unique — and the
insert succeeds, appending one new row — provided no existing row already
carries the id built from the same ticket id and the same whole-second
timestamp; repeated analyses of the same ticket within one second collide
instead (see the counterexample). -/
theorem save_processed_ticket_fresh_insert (table : List ProcRow) (tid : String)
    (analysis : List (String × JVal)) (now : Int)
    (h : table.any (fun r => r.id == makeProcessedId tid now) = false) :
    (saveProcessedTicket table tid analysis now).2 = true ∧
    (saveProcessedTicket table tid analysis now).1 =
      table ++ [⟨makeProcessedId tid now, tid, analysis,
                 pyGet analysis "confidence" (JVal.num (1 / 2)), now, "pending"⟩] := by
  constructor <;> simp [saveProcessedTicket, h]

theorem save_processed_ticket_fresh_insert_witness :
    ([procRowW].any (fun r => r.id == makeProcessedId "T1" 101) = false) ∧
    (saveProcessedTicket [procRowW] "T1" [] 101).2 = true :=
  ⟨by decide, (save_processed_ticket_fresh_insert [procRowW] "T1" [] 101 (by decide)).1⟩

/-- C4 (counterexample): two analyses of the same ticket in the same
whole second generate the same composite id, so the second insert hits
the primary key, fails with `False`, and adds no row — the claimed
unconditional uniqueness and insert success are false. -/
theorem save_processed_ticket_same_second_cex :
    (saveProcessedTicket [] "T1" [] 100).2 = true ∧
    (saveProcessedTicket [] "T1" [] 100).1.map (fun r => r.ticket_id) = ["T1"] ∧
    (saveProcessedTicket (saveProcessedTicket [] "T1" [] 100).1 "T1" [] 100).2 = false ∧
    (saveProcessedTicket (saveProcessedTicket [] "T1" [] 100).1 "T1" [] 100).1.length = 1 := by
  refine ⟨rfl, rfl, rfl, rfl⟩

theorem saveTicketsGo_rollback (fails : TicketRow → Bool) (orig : List TicketRow) :
    ∀ (ts pending : List TicketRow), ts.any fails = true →
      saveTicketsGo fails orig pending ts = (orig, false) := by
  intro ts
  induction ts with
  | nil => intro pending h; cases h
  | cons t rest ih =>
    intro pending h
    simp only [saveTicketsGo]
    by_cases hf : fails t = true
    · rw [if_pos hf]
    · rw [if_neg hf]
      apply ih
      cases hft : fails t with
      | true => exact absurd hft hf
      | false =>
        rw [List.any_cons, hft] at h
        simpa using h

/-- C8: `save_tickets` is all-or-nothing over its batch — if any ticket's
statement fails, the whole transaction rolls back, the committed tickets
table is returned unchanged, and the call reports `False` instead of
raising. -/
theorem save_tickets_all_or_nothing (fails : TicketRow → Bool) (table tickets : List TicketRow)
    (h : tickets.any fails = true) :
    saveTickets fails table tickets = (table, false) := by
  unfold saveTickets
  cases tickets with
  | nil => cases h
  | cons t ts =>
    rw [if_neg (by simp)]
    exact saveTicketsGo_rollback fails table (t :: ts) table h

theorem save_tickets_all_or_nothing_witness :
    ([ticketRowW, ticketRowW3].any failsT2 = true) ∧
    saveTickets failsT2 [ticketRowW] [ticketRowW, ticketRowW3] = ([ticketRowW], false) :=
  ⟨by decide, save_tickets_all_or_nothing failsT2 [ticketRowW] [ticketRowW, ticketRowW3] (by decide)⟩

/-- C7: `save_tickets` is idempotent per ticket id — re-ingesting a
ticket whose id already exists succeeds, keeps exactly one row for that
id (given the primary-key invariant that stored ids are distinct),
updates the mutable fields summary, description, category, priority,
status, reporter and updated, and preserves the row's `id` and `created`. -/
theorem save_tickets_upsert_idempotent (table : List TicketRow) (t r : TicketRow)
    (hn : (table.map (fun x => x.id)).Nodup) (hr : r ∈ table) (hid : r.id = t.id) :
    (saveTickets (fun _ => false) table [t]).2 = true ∧
    (saveTickets (fun _ => false) table [t]).1.length = table.length ∧
    ((saveTickets (fun _ => false) table [t]).1.filter (fun x => x.id == t.id)).length = 1 ∧
    (∃ r' ∈ (saveTickets (fun _ => false) table [t]).1,
       r'.id = r.id ∧ r'.created = r.created ∧ r'.summary = t.summary ∧
       r'.description = t.description ∧ r'.category = t.category ∧
       r'.priority = t.priority ∧ r'.status = t.status ∧
       r'.reporter = t.reporter ∧ r'.updated = t.updated) := by
  have hsv : saveTickets (fun _ => false) table [t] = (upsertTicket table t, true) := rfl
  have hbeq : (r.id == t.id) = true := by rw [hid]; exact beq_self_eq_true _
  have hany : table.any (fun x => x.id == t.id) = true := List.any_eq_true.mpr ⟨r, hr, hbeq⟩
  have hup : upsertTicket table t = table.map (fun x => if x.id == t.id then updateRow t x else x) := by
    unfold upsertTicket
    rw [hany]
    rfl
  have hidmap : ∀ a ∈ table, (if a.id == t.id then updateRow t a else a).id = a.id := by
    intro a _
    by_cases hx : (a.id == t.id) = true
    · rw [if_pos hx]; rfl
    · rw [if_neg hx]
  rw [hsv, hup]
  refine ⟨rfl, by simp, ?_, ?_⟩
  · rw [← List.countP_eq_length_filter, List.countP_map]
    have hpt : List.countP ((fun x => x.id == t.id) ∘ fun x => if x.id == t.id then updateRow t x else x) table
        = List.countP (fun x => x.id == t.id) table := by
      apply List.countP_congr
      intro a ha
      simp only [Function.comp]
      rw [hidmap a ha]
    rw [hpt]
    have hpm : List.countP (fun x => x.id == t.id) table
        = List.countP (fun i => i == t.id) (table.map (fun x => x.id)) := by
      rw [List.countP_map]
      rfl
    rw [hpm]
    have hmem : t.id ∈ table.map (fun x => x.id) := List.mem_map.mpr ⟨r, hr, hid⟩
    have : List.count t.id (table.map (fun x => x.id)) = 1 := List.count_eq_one_of_mem hn hmem
    exact this
  · refine ⟨updateRow t r, ?_, rfl, rfl, rfl, rfl, rfl, rfl, rfl, rfl, rfl⟩
    have h2 := List.mem_map_of_mem (fun x => if x.id == t.id then updateRow t x else x) hr
    simp only [hbeq, if_true] at h2
    exact h2

theorem save_tickets_upsert_idempotent_witness :
    (([ticketRowW].map (fun x => x.id)).Nodup ∧ ticketRowW ∈ [ticketRowW] ∧
      ticketRowW.id = ticketRowW2.id) ∧
    (saveTickets (fun _ => false) [ticketRowW] [ticketRowW2]).2 = true ∧
    ((saveTickets (fun _ => false) [ticketRowW] [ticketRowW2]).1.filter
        (fun x => x.id == ticketRowW2.id)).length = 1 :=
  ⟨⟨by decide, by decide, by decide⟩,
   (save_tickets_upsert_idempotent [ticketRowW] ticketRowW2 ticketRowW
      (by decide) (by decide) (by decide)).1,
   (save_tickets_upsert_idempotent [ticketRowW] ticketRowW2 ticketRowW
      (by decide) (by decide) (by decide)).2.2.1⟩

theorem maxOf_eq_none {l : List String} : maxOf l = none ↔ l = [] := by
  cases l with
  | nil => simp [maxOf]
  | cons x xs =>
    simp only [maxOf]
    cases maxOf xs <;> simp

theorem maxOf_mem {l : List String} {m : String} (h : maxOf l = some m) : m ∈ l := by
  induction l generalizing m with
  | nil => cases h
  | cons x xs ih =>
    unfold maxOf at h
    cases hm : maxOf xs with
    | none =>
      rw [hm] at h
      injection h with h2
      subst h2
      exact List.mem_cons_self _ _
    | some m2 =>
      rw [hm] at h
      injection h with h2
      subst h2
      rcases max_choice x m2 with hc | hc
      · rw [hc]; exact List.mem_cons_self _ _
      · rw [hc]; exact List.mem_cons_of_mem _ (ih hm)

theorem le_maxOf {l : List String} {a m : String} : a ∈ l → maxOf l = some m → a ≤ m := by
  induction l generalizing m with
  | nil => intro ha _; cases ha
  | cons x xs ih =>
    intro ha h
    unfold maxOf at h
    cases hm : maxOf xs with
    | none =>
      rw [hm] at h
      injection h with h2
      subst h2
      have hxs : xs = [] := maxOf_eq_none.mp hm
      subst hxs
      rcases List.mem_singleton.mp ha with rfl
      exact le_refl _
    | some m2 =>
      rw [hm] at h
      injection h with h2
      subst h2
      rcases List.mem_cons.mp ha with rfl | hxs
      · exact le_max_left _ _
      · exact le_trans (ih hxs hm) (le_max_right _ _)

theorem length_eq_one_of_mem_of_all_eq {α : Type} {l : List α} {r : α}
    (hnd : l.Nodup) (hr : r ∈ l) (hall : ∀ x ∈ l, x = r) : l.length = 1 := by
  cases l with
  | nil => cases hr
  | cons a rest =>
    cases rest with
    | nil => rfl
    | cons b rest2 =>
      have ha : a = r := hall a (List.mem_cons_self _ _)
      have hb : b = r := hall b (List.mem_cons_of_mem _ (List.mem_cons_self _ _))
      have hab : a = b := by rw [ha, hb]
      have hnotin : a ∉ b :: rest2 := (List.nodup_cons.mp hnd).1
      exact absurd (by rw [hab]; exact List.mem_cons_self _ _) hnotin

/-- C9: after `clean_database`, every ticket_id present before is still
present, appears in exactly one surviving row, the survivor is the row
whose generated id is the lexicographic maximum of its former group
(given the primary-key invariant that stored ids are distinct), and the
returned count is the number of rows removed. -/
theorem clean_database_dedup (table : List ProcRow)
    (hn : (table.map (fun r => r.id)).Nodup) :
    (∀ r ∈ table, ∃ r' ∈ (cleanDatabase table).1, r'.ticket_id = r.ticket_id) ∧
    (∀ r ∈ (cleanDatabase table).1,
       maxOf (idsFor r.ticket_id table) = some r.id ∧
       (∀ r2 ∈ table, r2.ticket_id = r.ticket_id → r2.id ≤ r.id) ∧
       ((cleanDatabase table).1.filter (fun x => x.ticket_id == r.ticket_id)).length = 1) ∧
    (cleanDatabase table).2 = table.length - (cleanDatabase table).1.length := by
  have hinj : ∀ x ∈ table, ∀ y ∈ table, x.id = y.id → x = y := by
    intro x hx y hy hxy
    exact List.inj_on_of_nodup_map hn hx hy hxy
  have hCD : (cleanDatabase table).1 = table.filter (fun r => (latestIds table).contains r.id) := rfl
  have hmax_of_kept : ∀ r ∈ table.filter (fun x => (latestIds table).contains x.id),
      maxOf (idsFor r.ticket_id table) = some r.id := by
    intro r hrk
    obtain ⟨hrt, hcontains⟩ := List.mem_filter.mp hrk
    have hmem : r.id ∈ latestIds table := List.elem_iff.mp hcontains
    obtain ⟨tid, htid_mem, hmax⟩ := List.mem_filterMap.mp hmem
    obtain ⟨r2, hr2, hr2id⟩ := List.mem_map.mp (maxOf_mem hmax)
    obtain ⟨hr2t, hr2tid⟩ := List.mem_filter.mp hr2
    have heq : r2 = r := hinj r2 hr2t r hrt (by rw [hr2id])
    rw [heq] at hr2tid
    have htid : r.ticket_id = tid := eq_of_beq hr2tid
    rw [htid]
    exact hmax
  refine ⟨?_, ?_, rfl⟩
  · intro r hrt
    rw [hCD]
    have hgrp : r.id ∈ idsFor r.ticket_id table :=
      List.mem_map.mpr ⟨r, List.mem_filter.mpr ⟨hrt, beq_self_eq_true _⟩, rfl⟩
    have hne : idsFor r.ticket_id table ≠ [] := by
      intro hl
      rw [hl] at hgrp
      cases hgrp
    obtain ⟨m, hm⟩ : ∃ m, maxOf (idsFor r.ticket_id table) = some m := by
      cases hmx : maxOf (idsFor r.ticket_id table) with
      | none => exact absurd (maxOf_eq_none.mp hmx) hne
      | some m => exact ⟨m, rfl⟩
    obtain ⟨rm, hrm, hrmid⟩ := List.mem_map.mp (maxOf_mem hm)
    obtain ⟨hrmt, hrmtid⟩ := List.mem_filter.mp hrm
    refine ⟨rm, ?_, eq_of_beq hrmtid⟩
    apply List.mem_filter.mpr
    refine ⟨hrmt, List.elem_iff.mpr ?_⟩
    apply List.mem_filterMap.mpr
    refine ⟨r.ticket_id, List.mem_dedup.mpr (List.mem_map.mpr ⟨r, hrt, rfl⟩), ?_⟩
    rw [hrmid]
    exact hm
  · intro r hrk
    rw [hCD] at hrk
    have h2 := hmax_of_kept r hrk
    refine ⟨h2, ?_, ?_⟩
    · intro r2 hr2t htid
      have hid2 : r2.id ∈ idsFor r.ticket_id table :=
        List.mem_map.mpr ⟨r2, List.mem_filter.mpr ⟨hr2t, by rw [htid]; exact beq_self_eq_true _⟩, rfl⟩
      exact le_maxOf hid2 h2
    · rw [hCD]
      have hkn : (table.filter (fun x => (latestIds table).contains x.id)).Nodup :=
        (List.Nodup.of_map _ hn).filter _
      have hall : ∀ x ∈ (table.filter (fun y => (latestIds table).contains y.id)).filter
          (fun y => y.ticket_id == r.ticket_id), x = r := by
        intro x hx
        obtain ⟨hxk, hxtid⟩ := List.mem_filter.mp hx
        have h1 := hmax_of_kept x hxk
        have htid : x.ticket_id = r.ticket_id := eq_of_beq hxtid
        rw [htid] at h1
        rw [h1] at h2
        injection h2 with hids
        exact hinj x (List.mem_filter.mp hxk).1 r (List.mem_filter.mp hrk).1 hids
      have hrmem : r ∈ (table.filter (fun y => (latestIds table).contains y.id)).filter
          (fun y => y.ticket_id == r.ticket_id) :=
        List.mem_filter.mpr ⟨hrk, beq_self_eq_true _⟩
      exact length_eq_one_of_mem_of_all_eq (hkn.filter _) hrmem hall

theorem clean_database_dedup_witness :
    ((procTableW.map (fun r => r.id)).Nodup) ∧
    (∀ r ∈ procTableW, ∃ r' ∈ (cleanDatabase procTableW).1, r'.ticket_id = r.ticket_id) ∧
    (∀ r ∈ (cleanDatabase procTableW).1,
       maxOf (idsFor r.ticket_id procTableW) = some r.id ∧
       (∀ r2 ∈ procTableW, r2.ticket_id = r.ticket_id → r2.id ≤ r.id) ∧
       ((cleanDatabase procTableW).1.filter (fun x => x.ticket_id == r.ticket_id)).length = 1) ∧
    (cleanDatabase procTableW).2 = procTableW.length - (cleanDatabase procTableW).1.length :=
  ⟨by decide,
   (clean_database_dedup procTableW (by decide)).1,
   (clean_database_dedup procTableW (by decide)).2.1,
   (clean_database_dedup procTableW (by decide)).2.2⟩
